import Mathlib

/-!
Verification of the remote command bridge in src/wxgui.py.

The bridge consists of Flask route handlers that drive the single-threaded
wx GUI through a shared pair response_event (a threading.Event) and
response_value (a module-level cell written by the UI thread).  Each
bounded-wait handler performs, in order: assert frame is not None;
response_event.clear(); parse the request body; wx.CallAfter(...);
response_event.wait(timeout=FLASK_TIMEOUT); then read response_value.

We embed each handler as a pure function from its inputs (the global
frame, the parsed request body, the outcome of the wait, the value found
in the shared cell) to a pair of (list of side effects performed, HTTP
outcome).  Side effects record the calls the handler makes against the
shared event, the UI executor queue and stdout, in program order, so that
claims about which steps run (and in which order) on a given input are
claims about the trace component.
-/

namespace Wxgui

/-- Python values as they appear in JSON request bodies and in the shared
response_value cell: None, booleans, integers, strings and dicts. -/
inductive PyVal where
  | none
  | bool (b : Bool)
  | int (n : Int)
  | str (s : String)
  | dict (entries : List (String × PyVal))

/-- Python truthiness, as tested by the bare if response_value: in the
handlers of src/wxgui.py lines 83, 105, 125, 145. -/
def PyVal.truthy : PyVal → Bool
  | .none => false
  | .bool b => b
  | .int n => n != 0
  | .str s => s != ""
  | .dict entries => !entries.isEmpty

/-- Python equality of a value against a string literal, as in the test
params["kwargs"]["format"] == "json": only a str can equal a str. -/
def PyVal.eqStr : PyVal → String → Bool
  | .str s, t => s == t
  | _, _ => false

/-- Dict subscript params[key] as an Option: Option.none models the
KeyError raised when the key is absent.  Python dicts have unique keys,
so first-match lookup is faithful. -/
def dget (params : List (String × PyVal)) (key : String) : Option PyVal :=
  match params with
  | [] => Option.none
  | (k, v) :: rest => if k == key then some v else dget rest key

/-- One observable side effect of a handler, in program order:
clearEvent is response_event.clear(); callAfter target args kwargs is
wx.CallAfter(frame.target, *args, **kwargs); waitEvent t is
response_event.wait(timeout=t); printOut v is print(v) to the server
console. -/
inductive Effect where
  | clearEvent
  | callAfter (target : String) (args : List PyVal) (kwargs : List (String × PyVal))
  | waitEvent (timeout : Nat)
  | printOut (v : PyVal)

/-- Body of a successful HTTP response: a plain text string, or a dict
that Flask serializes as JSON. -/
inductive RespBody where
  | text (s : String)
  | jsonDict (entries : List (String × PyVal))

/-- Outcome of one request.  ok is a normal return from the handler;
clientError exc is an HTTPException raised by a Flask helper (a 4xx,
e.g. request.get_json() on an unparseable body); serverError exc is an
unhandled Python exception that Flask turns into a 500 (AssertionError,
KeyError, TypeError, json.JSONDecodeError); noResponse is a handler that
falls off the end returning None. -/
inductive HttpOutcome where
  | ok (body : RespBody)
  | clientError (exc : String)
  | serverError (exc : String)
  | noResponse

/-- src/wxgui.py line 53: FLASK_TIMEOUT = 10. -/
def FLASK_TIMEOUT : Nat := 10

/-- src/wxgui.py lines 68-70: GET /version returns the fixed string
"1.0".  The handler never reads the global frame, so it is a constant. -/
def get_version : List Effect × HttpOutcome :=
  ([], HttpOutcome.ok (RespBody.text "1.0"))

/-- src/wxgui.py lines 72-85: GET /init/cmd.  The frame type F is kept
abstract: the bridge only schedules named methods on it.  waitResult is
the boolean returned by response_event.wait; response_value is the value
read from the shared cell after a successful wait.  The handler reads no
request body. -/
def init_cmd {F : Type} (frame : Option F) (waitResult : Bool)
    (response_value : PyVal) : List Effect × HttpOutcome :=
  match frame with
  | Option.none => ([], HttpOutcome.serverError "AssertionError")
  | some _ =>
    let tr := [Effect.clearEvent,
               Effect.callAfter "InitDisableCmd" [] [],
               Effect.waitEvent FLASK_TIMEOUT]
    if waitResult then
      if response_value.truthy then (tr, HttpOutcome.ok (RespBody.text "OK"))
      else (tr, HttpOutcome.ok (RespBody.text "ERROR"))
    else (tr, HttpOutcome.ok (RespBody.text "ERROR"))

/-- src/wxgui.py lines 87-107: POST /init/map.  body is the JSON value
request.get_json() produced: Option.none models a request body the
helper cannot parse (it raises an HTTPException, a client error), and a
parseable value that is not a JSON object makes the first subscript
params["grassdb"] raise TypeError.  Note the program order of the
source: the assert comes first, then response_event.clear(), and only
then the body is parsed and subscripted, so a malformed body fails after
the clear but before wx.CallAfter.  The three subscripts
params["grassdb"], params["location"], params["mapset"] are evaluated in
that order as arguments of wx.CallAfter; their values are forwarded
without any type validation. -/
def init_map {F : Type} (frame : Option F)
    (body : Option PyVal) (waitResult : Bool)
    (response_value : PyVal) : List Effect × HttpOutcome :=
  match frame with
  | Option.none => ([], HttpOutcome.serverError "AssertionError")
  | some _ =>
    match body with
    | Option.none => ([Effect.clearEvent], HttpOutcome.clientError "BadRequest")
    | some (PyVal.dict params) =>
      match dget params "grassdb" with
      | Option.none => ([Effect.clearEvent], HttpOutcome.serverError "KeyError")
      | some g =>
        match dget params "location" with
        | Option.none => ([Effect.clearEvent], HttpOutcome.serverError "KeyError")
        | some l =>
          match dget params "mapset" with
          | Option.none => ([Effect.clearEvent], HttpOutcome.serverError "KeyError")
          | some m =>
            let tr := [Effect.clearEvent,
                       Effect.callAfter "InitMapset" []
                         [("grassdb", g), ("location", l), ("mapset", m)],
                       Effect.waitEvent FLASK_TIMEOUT]
            if waitResult then
              if response_value.truthy then (tr, HttpOutcome.ok (RespBody.text "OK"))
              else (tr, HttpOutcome.ok (RespBody.text "ERROR"))
            else (tr, HttpOutcome.ok (RespBody.text "ERROR"))
    | some _ => ([Effect.clearEvent], HttpOutcome.serverError "TypeError")

/-- src/wxgui.py lines 109-127: POST /init/layer, same skeleton as
init_map with the single body field "query" passed to
frame.DisplayLayer. -/
def init_layer {F : Type} (frame : Option F)
    (body : Option PyVal) (waitResult : Bool)
    (response_value : PyVal) : List Effect × HttpOutcome :=
  match frame with
  | Option.none => ([], HttpOutcome.serverError "AssertionError")
  | some _ =>
    match body with
    | Option.none => ([Effect.clearEvent], HttpOutcome.clientError "BadRequest")
    | some (PyVal.dict params) =>
      match dget params "query" with
      | Option.none => ([Effect.clearEvent], HttpOutcome.serverError "KeyError")
      | some q =>
        let tr := [Effect.clearEvent,
                   Effect.callAfter "DisplayLayer" [] [("query", q)],
                   Effect.waitEvent FLASK_TIMEOUT]
        if waitResult then
          if response_value.truthy then (tr, HttpOutcome.ok (RespBody.text "OK"))
          else (tr, HttpOutcome.ok (RespBody.text "ERROR"))
        else (tr, HttpOutcome.ok (RespBody.text "ERROR"))
    | some _ => ([Effect.clearEvent], HttpOutcome.serverError "TypeError")

/-- src/wxgui.py lines 129-147: POST /init/scale, same skeleton with the
single body field "scale" passed to frame.InitMapScale. -/
def init_scale {F : Type} (frame : Option F)
    (body : Option PyVal) (waitResult : Bool)
    (response_value : PyVal) : List Effect × HttpOutcome :=
  match frame with
  | Option.none => ([], HttpOutcome.serverError "AssertionError")
  | some _ =>
    match body with
    | Option.none => ([Effect.clearEvent], HttpOutcome.clientError "BadRequest")
    | some (PyVal.dict params) =>
      match dget params "scale" with
      | Option.none => ([Effect.clearEvent], HttpOutcome.serverError "KeyError")
      | some sc =>
        let tr := [Effect.clearEvent,
                   Effect.callAfter "InitMapScale" [] [("scale", sc)],
                   Effect.waitEvent FLASK_TIMEOUT]
        if waitResult then
          if response_value.truthy then (tr, HttpOutcome.ok (RespBody.text "OK"))
          else (tr, HttpOutcome.ok (RespBody.text "ERROR"))
        else (tr, HttpOutcome.ok (RespBody.text "ERROR"))
    | some _ => ([Effect.clearEvent], HttpOutcome.serverError "TypeError")

/-- src/wxgui.py lines 149-172: GET /dump.  The snapshot of the frame is
abstracted as a function argument because its fields live in GUI modules
outside src/; only the frame guard matters for the claims. -/
def status_dump {F : Type} (frame : Option F) (snapshot : F → RespBody) :
    List Effect × HttpOutcome :=
  match frame with
  | Option.none => ([], HttpOutcome.serverError "AssertionError")
  | some f => ([], HttpOutcome.ok (snapshot f))

/-- src/wxgui.py lines 190-193: the test "format" in params["kwargs"] and
params["kwargs"]["format"] == "json", with Python short-circuiting. -/
def isFmtJson (kwargs : List (String × PyVal)) : Bool :=
  match dget kwargs "format" with
  | some v => v.eqStr "json"
  | Option.none => false

/-- src/wxgui.py lines 174-195: POST /gcmd.  json_loads abstracts the
standard-library json.loads: Option.none models the JSONDecodeError it
raises on input that is not valid JSON.  response_value here is the
triple (returncode, stdout text, stderr text) written by frame.GCommand.
body is the JSON value request.get_json() produced: Option.none models
an unparseable body (HTTPException, a client error), and a parseable
non-object body makes the first subscript params["cmd"] raise TypeError.
Program order: assert; clear; parse body; subscript params["cmd"] then
params["kwargs"] (a non-dict kwargs value makes the ** unpacking raise
TypeError); wx.CallAfter; wait; on success print response_value[2] and
build the response dict, whose stdout field is json-parsed exactly when
isFmtJson holds. -/
def gcmd {F : Type} (frame : Option F)
    (body : Option PyVal)
    (json_loads : String → Option PyVal) (waitResult : Bool)
    (response_value : Int × String × String) : List Effect × HttpOutcome :=
  match frame with
  | Option.none => ([], HttpOutcome.serverError "AssertionError")
  | some _ =>
    match body with
    | Option.none => ([Effect.clearEvent], HttpOutcome.clientError "BadRequest")
    | some (PyVal.dict params) =>
      match dget params "cmd" with
      | Option.none => ([Effect.clearEvent], HttpOutcome.serverError "KeyError")
      | some cmd =>
        match dget params "kwargs" with
        | Option.none => ([Effect.clearEvent], HttpOutcome.serverError "KeyError")
        | some (PyVal.dict kwargs) =>
          let tr := [Effect.clearEvent,
                     Effect.callAfter "GCommand" [cmd] kwargs,
                     Effect.waitEvent FLASK_TIMEOUT]
          if waitResult then
            let tr := tr ++ [Effect.printOut (PyVal.str response_value.2.2)]
            if isFmtJson kwargs then
              match json_loads response_value.2.1 with
              | Option.none => (tr, HttpOutcome.serverError "JSONDecodeError")
              | some parsed =>
                (tr, HttpOutcome.ok (RespBody.jsonDict
                  [("returncode", PyVal.int response_value.1),
                   ("stdout", parsed)]))
            else
              (tr, HttpOutcome.ok (RespBody.jsonDict
                [("returncode", PyVal.int response_value.1),
                 ("stdout", PyVal.str response_value.2.1)]))
          else (tr, HttpOutcome.ok (RespBody.text "ERROR"))
        | some _ => ([Effect.clearEvent], HttpOutcome.serverError "TypeError")
    | some _ => ([Effect.clearEvent], HttpOutcome.serverError "TypeError")

/-- src/wxgui.py lines 197-201: POST /quit.  After the frame guard it
schedules frame._quitGRASS on the UI thread and returns immediately:
there is no response_event.clear and no response_event.wait in the body,
and the function returns None (noResponse). -/
def quit {F : Type} (frame : Option F) : List Effect × HttpOutcome :=
  match frame with
  | Option.none => ([], HttpOutcome.serverError "AssertionError")
  | some _ => ([Effect.callAfter "_quitGRASS" [] []], HttpOutcome.noResponse)

/-- The route table of src/wxgui.py: every flask.route decorator with its
methods list, in source order (lines 68, 72, 87, 109, 129, 149, 174,
197). -/
def routes : List (String × List String) :=
  [("/version", ["GET"]),
   ("/init/cmd", ["GET"]),
   ("/init/map", ["POST"]),
   ("/init/layer", ["POST"]),
   ("/init/scale", ["POST"]),
   ("/dump", ["GET"]),
   ("/gcmd", ["POST"]),
   ("/quit", ["POST"])]

/-- Methods allowed for a path by the route table. -/
def routeMethods (path : String) : Option (List String) :=
  (routes.find? (fun r => r.1 == path)).map (fun r => r.2)

/-- Program counter of the Listener thread.  src/wxgui.py line 311
builds the HTTP server with make_server("0.0.0.0", flask_port, flask)
and no threaded flag, so werkzeug returns its plain single-threaded
BaseWSGIServer: requests are handled strictly one at a time on the one
FlaskThread, and the handler of a second request cannot start before the
handler of the first has returned.  We model two consecutive requests A
and B, each running the shared handler skeleton of the bounded-wait
endpoints: response_event.clear() (idle to armed), wx.CallAfter (armed
to submitted), then response_event.wait followed, on success, by the
read of response_value. -/
inductive ServerPC where
  | idleA
  | armedA
  | submittedA
  | idleB
  | armedB
  | submittedB
  | doneS
deriving DecidableEq

/-- State of the bridge while the single Listener thread serves two
consecutive bounded-wait requests A and B.  event is
response_event.is_set(); cell is response_value (payloads are Nat
identifiers so results of distinct commands are distinguishable);
uiQueue is the FIFO queue of callables scheduled by wx.CallAfter, each
tagged with the submitting request; outA and outB record each handler
outcome: Option.none while the handler has not returned, some
Option.none when its wait timed out (the handler answers "ERROR" without
reading the cell), and some (some v) when its wait returned true and it
read v from response_value. -/
structure BridgeState where
  event : Bool
  cell : Option Nat
  uiQueue : List (Nat × Nat)
  server : ServerPC
  outA : Option (Option Nat)
  outB : Option (Option Nat)
deriving DecidableEq

/-- Semantics of the bridge serving requests A (payload pA) then B
(payload pB) concurrently with the wx UI thread.  The handler steps are
the statements of src/wxgui.py (e.g. lines 180, 183, 185 for gcmd) run
in order on the single server thread; wake fires when the event is set
(Event.wait returns True), and timeout fires when FLASK_TIMEOUT elapses
with the event still clear (Event.wait returns False only if the flag
stayed unset, so it is unset at that moment).  Modelled from the spec:
the uiRun step is the UI-side completion (the scheduled callable writes
response_value and sets response_event), which lives in
main_window.frame, a module of this repository not present under src/;
the spec describes it as "UI Executor performs GUI action, writes
result, releases Completion Signal" with the executor draining its
queue FIFO, one task at a time, interleaved arbitrarily with the
Listener thread. -/
inductive BridgeStep (pA pB : Nat) : BridgeState → BridgeState → Prop where
  | clearA (s : BridgeState) : s.server = ServerPC.idleA →
      BridgeStep pA pB s { s with event := false, server := ServerPC.armedA }
  | schedA (s : BridgeState) : s.server = ServerPC.armedA →
      BridgeStep pA pB s
        { s with uiQueue := s.uiQueue ++ [(0, pA)],
                 server := ServerPC.submittedA }
  | wakeA (s : BridgeState) : s.server = ServerPC.submittedA →
      s.event = true →
      BridgeStep pA pB s
        { s with outA := some s.cell, server := ServerPC.idleB }
  | timeoutA (s : BridgeState) : s.server = ServerPC.submittedA →
      s.event = false →
      BridgeStep pA pB s
        { s with outA := some Option.none, server := ServerPC.idleB }
  | clearB (s : BridgeState) : s.server = ServerPC.idleB →
      BridgeStep pA pB s { s with event := false, server := ServerPC.armedB }
  | schedB (s : BridgeState) : s.server = ServerPC.armedB →
      BridgeStep pA pB s
        { s with uiQueue := s.uiQueue ++ [(1, pB)],
                 server := ServerPC.submittedB }
  | wakeB (s : BridgeState) : s.server = ServerPC.submittedB →
      s.event = true →
      BridgeStep pA pB s
        { s with outB := some s.cell, server := ServerPC.doneS }
  | timeoutB (s : BridgeState) : s.server = ServerPC.submittedB →
      s.event = false →
      BridgeStep pA pB s
        { s with outB := some Option.none, server := ServerPC.doneS }
  | uiRun (s : BridgeState) (t p : Nat) (rest : List (Nat × Nat)) :
      s.uiQueue = (t, p) :: rest →
      BridgeStep pA pB s
        { s with cell := some p, event := true, uiQueue := rest }

/-- The initial bridge state: event cleared, empty cell, empty UI queue,
the Listener about to serve request A, neither handler returned. -/
def initBridge : BridgeState :=
  { event := false, cell := Option.none, uiQueue := [],
    server := ServerPC.idleA, outA := Option.none, outB := Option.none }

/-- Inductive invariant of BridgeStep: a full characterisation of the
reachable shared state at every program point of the serialized
Listener.  Its payoff is the doneS case: the first handler, if its wait
succeeded, always read its own payload, and after a normal (non-timeout)
first request the second handler also read its own payload - while after
a timeout of A the disjuncts deliberately allow outB = some (some pA),
the cross-delivery that is actually reachable. -/
def BridgeInv (pA pB : Nat) (s : BridgeState) : Prop :=
  match s.server with
  | ServerPC.idleA =>
      s.event = false ∧ s.cell = Option.none ∧ s.uiQueue = [] ∧
      s.outA = Option.none ∧ s.outB = Option.none
  | ServerPC.armedA =>
      s.event = false ∧ s.cell = Option.none ∧ s.uiQueue = [] ∧
      s.outA = Option.none ∧ s.outB = Option.none
  | ServerPC.submittedA =>
      s.outA = Option.none ∧ s.outB = Option.none ∧
      ((s.uiQueue = [(0, pA)] ∧ s.event = false ∧ s.cell = Option.none) ∨
       (s.uiQueue = [] ∧ s.event = true ∧ s.cell = some pA))
  | ServerPC.idleB =>
      s.outB = Option.none ∧
      ((s.outA = some (some pA) ∧ s.uiQueue = [] ∧ s.event = true ∧
          s.cell = some pA) ∨
       (s.outA = some Option.none ∧
         ((s.uiQueue = [(0, pA)] ∧ s.event = false ∧ s.cell = Option.none) ∨
          (s.uiQueue = [] ∧ s.event = true ∧ s.cell = some pA))))
  | ServerPC.armedB =>
      s.outB = Option.none ∧
      ((s.outA = some (some pA) ∧ s.uiQueue = [] ∧ s.event = false ∧
          s.cell = some pA) ∨
       (s.outA = some Option.none ∧
         ((s.uiQueue = [(0, pA)] ∧ s.event = false ∧ s.cell = Option.none) ∨
          (s.uiQueue = [] ∧ s.event = true ∧ s.cell = some pA) ∨
          (s.uiQueue = [] ∧ s.event = false ∧ s.cell = some pA))))
  | ServerPC.submittedB =>
      s.outB = Option.none ∧
      ((s.outA = some (some pA) ∧
         ((s.uiQueue = [(1, pB)] ∧ s.event = false ∧ s.cell = some pA) ∨
          (s.uiQueue = [] ∧ s.event = true ∧ s.cell = some pB))) ∨
       (s.outA = some Option.none ∧
         ((s.uiQueue = [(0, pA), (1, pB)] ∧ s.event = false ∧
             s.cell = Option.none) ∨
          (s.uiQueue = [(1, pB)] ∧ s.event = true ∧ s.cell = some pA) ∨
          (s.uiQueue = [(1, pB)] ∧ s.event = false ∧ s.cell = some pA) ∨
          (s.uiQueue = [] ∧ s.event = true ∧ s.cell = some pB))))
  | ServerPC.doneS =>
      (∀ v, s.outA = some (some v) → v = pA) ∧
      (∀ v w, s.outA = some (some v) → s.outB = some (some w) → w = pB)

/-- Closed form of init_cmd on a constructed frame: the trace is always
clear, schedule, wait, and the body is "OK" exactly when the wait
succeeded and the shared value is truthy. -/
theorem init_cmd_eq {F : Type} (f : F) (w : Bool) (rv : PyVal) :
    init_cmd (some f) w rv =
      ([Effect.clearEvent, Effect.callAfter "InitDisableCmd" [] [],
        Effect.waitEvent FLASK_TIMEOUT],
       HttpOutcome.ok (RespBody.text (if w && rv.truthy then "OK" else "ERROR"))) := by
  cases w <;> cases h : rv.truthy <;> simp [init_cmd, h]

/-- Closed form of init_map on a constructed frame and a body holding
all three required keys. -/
theorem init_map_eq {F : Type} (f : F) (params : List (String × PyVal))
    (g l m : PyVal) (w : Bool) (rv : PyVal)
    (hg : dget params "grassdb" = some g)
    (hl : dget params "location" = some l)
    (hm : dget params "mapset" = some m) :
    init_map (some f) (some (PyVal.dict params)) w rv =
      ([Effect.clearEvent,
        Effect.callAfter "InitMapset" []
          [("grassdb", g), ("location", l), ("mapset", m)],
        Effect.waitEvent FLASK_TIMEOUT],
       HttpOutcome.ok (RespBody.text (if w && rv.truthy then "OK" else "ERROR"))) := by
  cases w <;> cases h : rv.truthy <;> simp [init_map, hg, hl, hm, h]

/-- Closed form of init_layer on a constructed frame and a body holding
the required key. -/
theorem init_layer_eq {F : Type} (f : F) (params : List (String × PyVal))
    (q : PyVal) (w : Bool) (rv : PyVal)
    (hq : dget params "query" = some q) :
    init_layer (some f) (some (PyVal.dict params)) w rv =
      ([Effect.clearEvent,
        Effect.callAfter "DisplayLayer" [] [("query", q)],
        Effect.waitEvent FLASK_TIMEOUT],
       HttpOutcome.ok (RespBody.text (if w && rv.truthy then "OK" else "ERROR"))) := by
  cases w <;> cases h : rv.truthy <;> simp [init_layer, hq, h]

/-- Closed form of init_scale on a constructed frame and a body holding
the required key. -/
theorem init_scale_eq {F : Type} (f : F) (params : List (String × PyVal))
    (sc : PyVal) (w : Bool) (rv : PyVal)
    (hs : dget params "scale" = some sc) :
    init_scale (some f) (some (PyVal.dict params)) w rv =
      ([Effect.clearEvent,
        Effect.callAfter "InitMapScale" [] [("scale", sc)],
        Effect.waitEvent FLASK_TIMEOUT],
       HttpOutcome.ok (RespBody.text (if w && rv.truthy then "OK" else "ERROR"))) := by
  cases w <;> cases h : rv.truthy <;> simp [init_scale, hs, h]

/-- Closed form of gcmd on a constructed frame and a well-formed body. -/
theorem gcmd_eq {F : Type} (f : F) (params : List (String × PyVal))
    (cmd : PyVal) (kwargs : List (String × PyVal))
    (json_loads : String → Option PyVal) (w : Bool)
    (rv : Int × String × String)
    (hc : dget params "cmd" = some cmd)
    (hk : dget params "kwargs" = some (PyVal.dict kwargs)) :
    gcmd (some f) (some (PyVal.dict params)) json_loads w rv =
      if w then
        ([Effect.clearEvent, Effect.callAfter "GCommand" [cmd] kwargs,
          Effect.waitEvent FLASK_TIMEOUT,
          Effect.printOut (PyVal.str rv.2.2)],
         if isFmtJson kwargs then
           match json_loads rv.2.1 with
           | Option.none => HttpOutcome.serverError "JSONDecodeError"
           | some parsed => HttpOutcome.ok (RespBody.jsonDict
               [("returncode", PyVal.int rv.1), ("stdout", parsed)])
         else HttpOutcome.ok (RespBody.jsonDict
               [("returncode", PyVal.int rv.1),
                ("stdout", PyVal.str rv.2.1)]))
      else
        ([Effect.clearEvent, Effect.callAfter "GCommand" [cmd] kwargs,
          Effect.waitEvent FLASK_TIMEOUT],
         HttpOutcome.ok (RespBody.text "ERROR")) := by
  cases w
  · simp [gcmd, hc, hk]
  · cases hf : isFmtJson kwargs
    · simp [gcmd, hc, hk, hf]
    · cases hj : json_loads rv.2.1 <;> simp [gcmd, hc, hk, hf, hj]

/-- The format test of gcmd holds exactly when the kwargs dict maps
"format" to the string "json". -/
theorem isFmtJson_iff (kwargs : List (String × PyVal)) :
    isFmtJson kwargs = true ↔ dget kwargs "format" = some (PyVal.str "json") := by
  unfold isFmtJson
  cases h : dget kwargs "format" with
  | none => simp
  | some v => cases v <;> simp [PyVal.eqStr]

/-- An OK-or-ERROR text response equals the OK response exactly when its
selector is true. -/
theorem okText_iff (b : Bool) :
    HttpOutcome.ok (RespBody.text (if b then "OK" else "ERROR")) =
      HttpOutcome.ok (RespBody.text "OK") ↔ b = true := by
  cases b
  · constructor
    · intro h
      injection h with h1
      injection h1 with h2
      exact absurd h2 (by decide)
    · intro h
      exact absurd h (by decide)
  · simp

/-- Preservation: every BridgeStep transition keeps BridgeInv. -/
theorem bridgeInv_step {pA pB : Nat} {s1 s2 : BridgeState}
    (hinv : BridgeInv pA pB s1) (hstep : BridgeStep pA pB s1 s2) :
    BridgeInv pA pB s2 := by
  cases hstep with
  | clearA hpc =>
    simp only [BridgeInv, hpc] at hinv
    simp_all [BridgeInv]
  | schedA hpc =>
    simp only [BridgeInv, hpc] at hinv
    simp_all [BridgeInv]
  | wakeA hpc hev =>
    simp only [BridgeInv, hpc] at hinv
    obtain ⟨ha, hb, hdisj⟩ := hinv
    rcases hdisj with ⟨hq, he, hc⟩ | ⟨hq, he, hc⟩
    · rw [he] at hev
      exact absurd hev (by decide)
    · simp [BridgeInv, ha, hb, hq, he, hc]
  | timeoutA hpc hev =>
    simp only [BridgeInv, hpc] at hinv
    obtain ⟨ha, hb, hdisj⟩ := hinv
    rcases hdisj with ⟨hq, he, hc⟩ | ⟨hq, he, hc⟩
    · simp [BridgeInv, ha, hb, hq, he, hc]
    · rw [he] at hev
      exact absurd hev (by decide)
  | clearB hpc =>
    simp only [BridgeInv, hpc] at hinv
    obtain ⟨hb, hdisj⟩ := hinv
    rcases hdisj with ⟨ha, hq, he, hc⟩ | ⟨ha, hsub⟩
    · simp [BridgeInv, hb, ha, hq, hc]
    · rcases hsub with ⟨hq, he, hc⟩ | ⟨hq, he, hc⟩
      · simp [BridgeInv, hb, ha, hq, he, hc]
      · simp [BridgeInv, hb, ha, hq, he, hc]
  | schedB hpc =>
    simp only [BridgeInv, hpc] at hinv
    obtain ⟨hb, hdisj⟩ := hinv
    rcases hdisj with ⟨ha, hq, he, hc⟩ | ⟨ha, hsub⟩
    · simp [BridgeInv, hb, ha, hq, he, hc]
    · rcases hsub with ⟨hq, he, hc⟩ | ⟨hq, he, hc⟩ | ⟨hq, he, hc⟩
      · simp [BridgeInv, hb, ha, hq, he, hc]
      · simp [BridgeInv, hb, ha, hq, he, hc]
      · simp [BridgeInv, hb, ha, hq, he, hc]
  | wakeB hpc hev =>
    simp only [BridgeInv, hpc] at hinv
    obtain ⟨hb, hdisj⟩ := hinv
    simp only [BridgeInv]
    rcases hdisj with ⟨ha, hsub⟩ | ⟨ha, hsub⟩
    · rcases hsub with ⟨hq, he, hc⟩ | ⟨hq, he, hc⟩
      · rw [he] at hev
        exact absurd hev (by decide)
      · constructor
        · intro v hv
          rw [ha] at hv
          simp only [Option.some.injEq] at hv
          exact hv.symm
        · intro v w hv hw
          rw [hc] at hw
          simp only [Option.some.injEq] at hw
          exact hw.symm
    · constructor
      · intro v hv
        rw [ha] at hv
        simp at hv
      · intro v w hv hw
        rw [ha] at hv
        simp at hv
  | timeoutB hpc hev =>
    simp only [BridgeInv, hpc] at hinv
    obtain ⟨hb, hdisj⟩ := hinv
    simp only [BridgeInv]
    constructor
    · intro v hv
      rcases hdisj with ⟨ha, h2⟩ | ⟨ha, h2⟩
      · rw [ha] at hv
        simp only [Option.some.injEq] at hv
        exact hv.symm
      · rw [ha] at hv
        simp at hv
    · intro v w hv hw
      simp at hw
  | uiRun t p rest hq =>
    cases hsv : s1.server with
    | idleA =>
      simp only [BridgeInv, hsv] at hinv
      rw [hinv.2.2.1] at hq
      exact absurd hq (by simp)
    | armedA =>
      simp only [BridgeInv, hsv] at hinv
      rw [hinv.2.2.1] at hq
      exact absurd hq (by simp)
    | submittedA =>
      simp only [BridgeInv, hsv] at hinv
      obtain ⟨ha, hb, hdisj⟩ := hinv
      rcases hdisj with ⟨hql, he, hc⟩ | ⟨hql, he, hc⟩
      · rw [hql] at hq
        injection hq with h1 h2
        injection h1 with h1a h1b
        subst h1b
        subst h2
        simp [BridgeInv, hsv, ha, hb]
      · rw [hql] at hq
        exact absurd hq (by simp)
    | idleB =>
      simp only [BridgeInv, hsv] at hinv
      obtain ⟨hb, hdisj⟩ := hinv
      rcases hdisj with ⟨ha, hql, he, hc⟩ | ⟨ha, hsub⟩
      · rw [hql] at hq
        exact absurd hq (by simp)
      · rcases hsub with ⟨hql, he, hc⟩ | ⟨hql, he, hc⟩
        · rw [hql] at hq
          injection hq with h1 h2
          injection h1 with h1a h1b
          subst h1b
          subst h2
          simp [BridgeInv, hsv, ha, hb]
        · rw [hql] at hq
          exact absurd hq (by simp)
    | armedB =>
      simp only [BridgeInv, hsv] at hinv
      obtain ⟨hb, hdisj⟩ := hinv
      rcases hdisj with ⟨ha, hql, he, hc⟩ | ⟨ha, hsub⟩
      · rw [hql] at hq
        exact absurd hq (by simp)
      · rcases hsub with ⟨hql, he, hc⟩ | ⟨hql, he, hc⟩ | ⟨hql, he, hc⟩
        · rw [hql] at hq
          injection hq with h1 h2
          injection h1 with h1a h1b
          subst h1b
          subst h2
          simp [BridgeInv, hsv, ha, hb]
        · rw [hql] at hq
          exact absurd hq (by simp)
        · rw [hql] at hq
          exact absurd hq (by simp)
    | submittedB =>
      simp only [BridgeInv, hsv] at hinv
      obtain ⟨hb, hdisj⟩ := hinv
      rcases hdisj with ⟨ha, hsub⟩ | ⟨ha, hsub⟩
      · rcases hsub with ⟨hql, he, hc⟩ | ⟨hql, he, hc⟩
        · rw [hql] at hq
          injection hq with h1 h2
          injection h1 with h1a h1b
          subst h1b
          subst h2
          simp [BridgeInv, hsv, ha, hb]
        · rw [hql] at hq
          exact absurd hq (by simp)
      · rcases hsub with ⟨hql, he, hc⟩ | ⟨hql, he, hc⟩ | ⟨hql, he, hc⟩ | ⟨hql, he, hc⟩
        · rw [hql] at hq
          injection hq with h1 h2
          injection h1 with h1a h1b
          subst h1b
          subst h2
          simp [BridgeInv, hsv, ha, hb]
        · rw [hql] at hq
          injection hq with h1 h2
          injection h1 with h1a h1b
          subst h1b
          subst h2
          simp [BridgeInv, hsv, ha, hb]
        · rw [hql] at hq
          injection hq with h1 h2
          injection h1 with h1a h1b
          subst h1b
          subst h2
          simp [BridgeInv, hsv, ha, hb]
        · rw [hql] at hq
          exact absurd hq (by simp)
    | doneS =>
      simp only [BridgeInv, hsv] at hinv
      simp only [BridgeInv, hsv]
      exact hinv

/-- Every state reachable from the initial bridge state satisfies the
invariant. -/
theorem bridgeInv_reachable {pA pB : Nat} {s : BridgeState}
    (h : Relation.ReflTransGen (BridgeStep pA pB) initBridge s) :
    BridgeInv pA pB s := by
  induction h with
  | refl => simp [BridgeInv, initBridge]
  | tail _ hstep ih => exact bridgeInv_step ih hstep

/-- Claim C1 counterexample: the claim states that the mutual-exclusion
gate keeps at most one command in flight and that no caller ever
observes the other callers Result Cell value.  The single-threaded
server does serialize the handlers, but its gate ends when a handler
returns, not when the command completes: after request A (payload 1)
times out, its callable is still queued on the UI executor; request B
(payload 2) then arms and submits, the UI executor runs A stale
callable, and B wait wakes reading A value 1.  The explicit trace below
reaches a state where request B observed request A Result Cell value,
refuting the claim. -/
theorem c1_counterexample :
    ∃ s : BridgeState,
      Relation.ReflTransGen (BridgeStep 1 2) initBridge s ∧
      s.outB = some (some 1) ∧ (1 : Nat) ≠ 2 := by
  refine ⟨{ event := true, cell := some 1, uiQueue := [(1, 2)],
            server := ServerPC.doneS, outA := some Option.none,
            outB := some (some 1) }, ?_, rfl, by decide⟩
  exact Relation.ReflTransGen.head (BridgeStep.clearA _ rfl)
    (Relation.ReflTransGen.head (BridgeStep.schedA _ rfl)
    (Relation.ReflTransGen.head (BridgeStep.timeoutA _ rfl rfl)
    (Relation.ReflTransGen.head (BridgeStep.clearB _ rfl)
    (Relation.ReflTransGen.head (BridgeStep.schedB _ rfl)
    (Relation.ReflTransGen.head (BridgeStep.uiRun _ 0 1 [(1, 2)] rfl)
    (Relation.ReflTransGen.head (BridgeStep.wakeB _ rfl rfl)
      Relation.ReflTransGen.refl))))))

/-- Claim C1 (amended): requests to the bounded-wait endpoints are
serialized, not by an explicit lock but by the single-threaded werkzeug
server (make_server without a threaded flag, src/wxgui.py line 311), so
the arm-submit-wait sequences of two requests never interleave at the
handler level; this gate however only spans the handler, not the
lifetime of the command, so cross-delivery is impossible exactly as long
as no wait times out: in every reachable final state, a first request
whose wait succeeded observed its own payload, and if the first request
did not time out, the second request that completed its wait also
observed its own payload. -/
theorem c1_serialized_gate {pA pB : Nat} {s : BridgeState} (v : Nat)
    (hreach : Relation.ReflTransGen (BridgeStep pA pB) initBridge s)
    (hdone : s.server = ServerPC.doneS)
    (hA : s.outA = some (some v)) :
    v = pA ∧ ∀ w, s.outB = some (some w) → w = pB := by
  have hinv := bridgeInv_reachable hreach
  simp only [BridgeInv, hdone] at hinv
  exact ⟨hinv.1 v hA, fun w hw => hinv.2 v w hA hw⟩

/-- Claim C1 witness: the all-normal execution in which both requests
complete before the timeout; applying the amended theorem at its final
state shows each caller read its own payload (1 and 2 respectively). -/
theorem c1_witness :
    (1 : Nat) = 1 ∧
    (∀ w, (some (some 2) : Option (Option Nat)) = some (some w) → w = 2) :=
  @c1_serialized_gate 1 2
    { event := true, cell := some 2, uiQueue := [],
      server := ServerPC.doneS, outA := some (some 1),
      outB := some (some 2) } 1
    (Relation.ReflTransGen.head (BridgeStep.clearA _ rfl)
      (Relation.ReflTransGen.head (BridgeStep.schedA _ rfl)
      (Relation.ReflTransGen.head (BridgeStep.uiRun _ 0 1 [] rfl)
      (Relation.ReflTransGen.head (BridgeStep.wakeA _ rfl rfl)
      (Relation.ReflTransGen.head (BridgeStep.clearB _ rfl)
      (Relation.ReflTransGen.head (BridgeStep.schedB _ rfl)
      (Relation.ReflTransGen.head (BridgeStep.uiRun _ 1 2 [] rfl)
      (Relation.ReflTransGen.head (BridgeStep.wakeB _ rfl rfl)
        Relation.ReflTransGen.refl))))))))
    rfl rfl

/-- Claim C3: while the global frame is still None, every endpoint except
GET /version fails its assert with an empty effect trace (nothing is
scheduled, no event is touched, the frame is never dereferenced), while
GET /version returns the fixed string "1.0" independently of any UI
state. -/
theorem c3_version_only_before_frame :
    get_version = ([], HttpOutcome.ok (RespBody.text "1.0")) ∧
    (∀ {F : Type} (w : Bool) (rv : PyVal),
      init_cmd (F := F) Option.none w rv =
        ([], HttpOutcome.serverError "AssertionError")) ∧
    (∀ {F : Type} (body : Option PyVal) (w : Bool) (rv : PyVal),
      init_map (F := F) Option.none body w rv =
        ([], HttpOutcome.serverError "AssertionError")) ∧
    (∀ {F : Type} (body : Option PyVal) (w : Bool) (rv : PyVal),
      init_layer (F := F) Option.none body w rv =
        ([], HttpOutcome.serverError "AssertionError")) ∧
    (∀ {F : Type} (body : Option PyVal) (w : Bool) (rv : PyVal),
      init_scale (F := F) Option.none body w rv =
        ([], HttpOutcome.serverError "AssertionError")) ∧
    (∀ {F : Type} (body : Option PyVal)
        (json_loads : String → Option PyVal) (w : Bool)
        (rv : Int × String × String),
      gcmd (F := F) Option.none body json_loads w rv =
        ([], HttpOutcome.serverError "AssertionError")) ∧
    (∀ {F : Type} (snapshot : F → RespBody),
      status_dump Option.none snapshot =
        ([], HttpOutcome.serverError "AssertionError")) ∧
    (∀ {F : Type}, quit (F := F) Option.none =
        ([], HttpOutcome.serverError "AssertionError")) := by
  refine ⟨rfl, ?_, ?_, ?_, ?_, ?_, ?_, ?_⟩ <;> intros <;> rfl

/-- Claim C5: POST /quit (with the frame constructed) only schedules
frame._quitGRASS on the UI executor and returns: its trace contains no
wait on the completion event (and no arm either), so its return is never
delayed by the bounded timeout. -/
theorem c5_quit_fire_and_forget :
    ∀ {F : Type} (f : F),
      quit (some f) =
        ([Effect.callAfter "_quitGRASS" [] []], HttpOutcome.noResponse) ∧
      (∀ t : Nat, Effect.waitEvent t ∉ (quit (some f)).1) ∧
      Effect.clearEvent ∉ (quit (some f)).1 := by
  intro F f
  refine ⟨rfl, ?_, ?_⟩
  · intro t
    simp [quit]
  · simp [quit]

/-- Claim C7 counterexample: the claim states that /init/cmd is reachable
via both GET and POST; in src/wxgui.py line 72 the route is declared with
methods=["GET"] only, so POST is not among the allowed methods. -/
theorem c7_counterexample :
    routeMethods "/init/cmd" = some ["GET"] ∧
    ¬ "POST" ∈ (routeMethods "/init/cmd").getD [] := by
  decide

/-- Claim C7 (amended): /init/cmd is reachable only via GET, and the
handler reads no request fields at all: whatever the request carries, it
schedules InitDisableCmd with no arguments. -/
theorem c7_get_only :
    routeMethods "/init/cmd" = some ["GET"] ∧
    "GET" ∈ (routeMethods "/init/cmd").getD [] ∧
    (∀ {F : Type} (f : F) (w : Bool) (rv : PyVal),
      (init_cmd (some f) w rv).1 =
        [Effect.clearEvent, Effect.callAfter "InitDisableCmd" [] [],
         Effect.waitEvent FLASK_TIMEOUT]) := by
  refine ⟨by decide, by decide, ?_⟩
  intro F f w rv
  rw [init_cmd_eq]

/-- Claim C2: for a POST /gcmd request that completes before the timeout
(and whose stdout parses when asked to), the stdout field of the response
is the json-parsed value exactly when the kwargs dict maps "format" to
the string "json", and the literal captured string otherwise. -/
theorem c2_gcmd_stdout_format {F : Type} (f : F)
    (params : List (String × PyVal)) (cmd : PyVal)
    (kwargs : List (String × PyVal)) (json_loads : String → Option PyVal)
    (rv : Int × String × String) (v : PyVal)
    (hc : dget params "cmd" = some cmd)
    (hk : dget params "kwargs" = some (PyVal.dict kwargs))
    (hv : json_loads rv.2.1 = some v) :
    (gcmd (some f) (some (PyVal.dict params)) json_loads true rv).2 =
      HttpOutcome.ok (RespBody.jsonDict
        [("returncode", PyVal.int rv.1),
         ("stdout", if isFmtJson kwargs then v else PyVal.str rv.2.1)]) ∧
    (isFmtJson kwargs = true ↔
      dget kwargs "format" = some (PyVal.str "json")) := by
  refine ⟨?_, isFmtJson_iff kwargs⟩
  rw [gcmd_eq f params cmd kwargs json_loads true rv hc hk]
  cases hf : isFmtJson kwargs <;> simp [hf, hv]

/-- Claim C2 witness: a concrete /gcmd request with kwargs format json
whose stdout parses to an empty dict. -/
theorem c2_witness :
    (gcmd (some ()) (some (PyVal.dict [("cmd", PyVal.str "r.info"),
        ("kwargs", PyVal.dict [("format", PyVal.str "json")])]))
      (fun _ => some (PyVal.dict [])) true (0, "payload", "diag")).2 =
      HttpOutcome.ok (RespBody.jsonDict
        [("returncode", PyVal.int 0),
         ("stdout", if isFmtJson [("format", PyVal.str "json")]
                    then PyVal.dict [] else PyVal.str "payload")]) ∧
    (isFmtJson [("format", PyVal.str "json")] = true ↔
      dget [("format", PyVal.str "json")] "format" =
        some (PyVal.str "json")) :=
  c2_gcmd_stdout_format () _ _ _ _ _ _ rfl rfl rfl

/-- Claim C9: when kwargs selects json format but the captured stdout is
not valid JSON, the json.loads call in gcmd raises (an unhandled
JSONDecodeError, surfacing as a server error): the handler neither
returns the text "ERROR" nor any successful response at all. -/
theorem c9_gcmd_invalid_json {F : Type} (f : F)
    (params : List (String × PyVal)) (cmd : PyVal)
    (kwargs : List (String × PyVal)) (json_loads : String → Option PyVal)
    (rv : Int × String × String)
    (hc : dget params "cmd" = some cmd)
    (hk : dget params "kwargs" = some (PyVal.dict kwargs))
    (hf : isFmtJson kwargs = true)
    (hv : json_loads rv.2.1 = Option.none) :
    (gcmd (some f) (some (PyVal.dict params)) json_loads true rv).2 =
      HttpOutcome.serverError "JSONDecodeError" ∧
    (∀ b : RespBody,
      (gcmd (some f) (some (PyVal.dict params)) json_loads true rv).2 ≠
        HttpOutcome.ok b) := by
  have he := gcmd_eq f params cmd kwargs json_loads true rv hc hk
  constructor
  · rw [he]
    simp [hf, hv]
  · intro b hb
    rw [he] at hb
    simp [hf, hv] at hb

/-- Claim C9 witness: a concrete /gcmd request with format json whose
stdout never parses. -/
theorem c9_witness :
    (gcmd (some ()) (some (PyVal.dict [("cmd", PyVal.str "r.info"),
        ("kwargs", PyVal.dict [("format", PyVal.str "json")])]))
      (fun _ => Option.none) true (0, "not json", "diag")).2 =
      HttpOutcome.serverError "JSONDecodeError" :=
  (c9_gcmd_invalid_json ()
    [("cmd", PyVal.str "r.info"),
     ("kwargs", PyVal.dict [("format", PyVal.str "json")])]
    (PyVal.str "r.info") [("format", PyVal.str "json")]
    (fun _ => Option.none) (0, "not json", "diag") rfl rfl rfl rfl).1

/-- Claim C6: every bounded-wait endpoint waits with the same constant
FLASK_TIMEOUT = 10, and a wait that elapses without a signal makes each
of them return the bare text "ERROR" with no further detail. -/
theorem c6_uniform_timeout :
    FLASK_TIMEOUT = 10 ∧
    (∀ {F : Type} (f : F) (rv : PyVal),
      init_cmd (some f) false rv =
        ([Effect.clearEvent, Effect.callAfter "InitDisableCmd" [] [],
          Effect.waitEvent FLASK_TIMEOUT],
         HttpOutcome.ok (RespBody.text "ERROR"))) ∧
    (∀ {F : Type} (f : F) (params : List (String × PyVal))
        (g l m : PyVal) (rv : PyVal),
      dget params "grassdb" = some g → dget params "location" = some l →
      dget params "mapset" = some m →
      init_map (some f) (some (PyVal.dict params)) false rv =
        ([Effect.clearEvent,
          Effect.callAfter "InitMapset" []
            [("grassdb", g), ("location", l), ("mapset", m)],
          Effect.waitEvent FLASK_TIMEOUT],
         HttpOutcome.ok (RespBody.text "ERROR"))) ∧
    (∀ {F : Type} (f : F) (params : List (String × PyVal))
        (q : PyVal) (rv : PyVal),
      dget params "query" = some q →
      init_layer (some f) (some (PyVal.dict params)) false rv =
        ([Effect.clearEvent, Effect.callAfter "DisplayLayer" [] [("query", q)],
          Effect.waitEvent FLASK_TIMEOUT],
         HttpOutcome.ok (RespBody.text "ERROR"))) ∧
    (∀ {F : Type} (f : F) (params : List (String × PyVal))
        (sc : PyVal) (rv : PyVal),
      dget params "scale" = some sc →
      init_scale (some f) (some (PyVal.dict params)) false rv =
        ([Effect.clearEvent, Effect.callAfter "InitMapScale" [] [("scale", sc)],
          Effect.waitEvent FLASK_TIMEOUT],
         HttpOutcome.ok (RespBody.text "ERROR"))) ∧
    (∀ {F : Type} (f : F) (params : List (String × PyVal))
        (cmd : PyVal) (kwargs : List (String × PyVal))
        (json_loads : String → Option PyVal) (rv : Int × String × String),
      dget params "cmd" = some cmd →
      dget params "kwargs" = some (PyVal.dict kwargs) →
      gcmd (some f) (some (PyVal.dict params)) json_loads false rv =
        ([Effect.clearEvent, Effect.callAfter "GCommand" [cmd] kwargs,
          Effect.waitEvent FLASK_TIMEOUT],
         HttpOutcome.ok (RespBody.text "ERROR"))) := by
  refine ⟨rfl, ?_, ?_, ?_, ?_, ?_⟩
  · intro F f rv
    rw [init_cmd_eq]
    simp
  · intro F f params g l m rv hg hl hm
    rw [init_map_eq f params g l m false rv hg hl hm]
    simp
  · intro F f params q rv hq
    rw [init_layer_eq f params q false rv hq]
    simp
  · intro F f params sc rv hs
    rw [init_scale_eq f params sc false rv hs]
    simp
  · intro F f params cmd kwargs json_loads rv hc hk
    rw [gcmd_eq f params cmd kwargs json_loads false rv hc hk]
    simp

/-- Claim C6 witness: concrete timed-out requests against each of the
endpoints that take a request body. -/
theorem c6_witness :
    init_map (some ()) (some (PyVal.dict [("grassdb", PyVal.str "/data"),
        ("location", PyVal.str "loc1"), ("mapset", PyVal.str "PERMANENT")]))
      false PyVal.none =
      ([Effect.clearEvent,
        Effect.callAfter "InitMapset" []
          [("grassdb", PyVal.str "/data"), ("location", PyVal.str "loc1"),
           ("mapset", PyVal.str "PERMANENT")],
        Effect.waitEvent FLASK_TIMEOUT],
       HttpOutcome.ok (RespBody.text "ERROR")) ∧
    init_layer (some ()) (some (PyVal.dict [("query", PyVal.str "elev")])) false PyVal.none =
      ([Effect.clearEvent,
        Effect.callAfter "DisplayLayer" [] [("query", PyVal.str "elev")],
        Effect.waitEvent FLASK_TIMEOUT],
       HttpOutcome.ok (RespBody.text "ERROR")) ∧
    init_scale (some ()) (some (PyVal.dict [("scale", PyVal.int 500)])) false PyVal.none =
      ([Effect.clearEvent,
        Effect.callAfter "InitMapScale" [] [("scale", PyVal.int 500)],
        Effect.waitEvent FLASK_TIMEOUT],
       HttpOutcome.ok (RespBody.text "ERROR")) ∧
    gcmd (some ()) (some (PyVal.dict [("cmd", PyVal.str "g.region"),
        ("kwargs", PyVal.dict [])])) (fun _ => Option.none) false (0, "", "") =
      ([Effect.clearEvent, Effect.callAfter "GCommand" [PyVal.str "g.region"] [],
        Effect.waitEvent FLASK_TIMEOUT],
       HttpOutcome.ok (RespBody.text "ERROR")) :=
  ⟨c6_uniform_timeout.2.2.1 () _ _ _ _ _ rfl rfl rfl,
   c6_uniform_timeout.2.2.2.1 () _ _ _ rfl,
   c6_uniform_timeout.2.2.2.2.1 () _ _ _ rfl,
   c6_uniform_timeout.2.2.2.2.2 () _ _ _ _ _ rfl rfl⟩

/-- Claim C10: each /init endpoint answers "OK" exactly when the wait
returned true and the shared response_value is truthy; a timeout
(wait false) and a completed-but-falsy value both collapse to the very
same "ERROR" body, captured here by the single if-expression over
w && truthy. -/
theorem c10_ok_iff_truthy :
    (∀ {F : Type} (f : F) (w : Bool) (rv : PyVal),
      (init_cmd (some f) w rv).2 =
        HttpOutcome.ok (RespBody.text
          (if w && rv.truthy then "OK" else "ERROR")) ∧
      ((init_cmd (some f) w rv).2 = HttpOutcome.ok (RespBody.text "OK") ↔
        w = true ∧ rv.truthy = true)) ∧
    (∀ {F : Type} (f : F) (params : List (String × PyVal))
        (g l m : PyVal) (w : Bool) (rv : PyVal),
      dget params "grassdb" = some g → dget params "location" = some l →
      dget params "mapset" = some m →
      (init_map (some f) (some (PyVal.dict params)) w rv).2 =
        HttpOutcome.ok (RespBody.text
          (if w && rv.truthy then "OK" else "ERROR")) ∧
      ((init_map (some f) (some (PyVal.dict params)) w rv).2 =
          HttpOutcome.ok (RespBody.text "OK") ↔
        w = true ∧ rv.truthy = true)) ∧
    (∀ {F : Type} (f : F) (params : List (String × PyVal))
        (q : PyVal) (w : Bool) (rv : PyVal),
      dget params "query" = some q →
      (init_layer (some f) (some (PyVal.dict params)) w rv).2 =
        HttpOutcome.ok (RespBody.text
          (if w && rv.truthy then "OK" else "ERROR")) ∧
      ((init_layer (some f) (some (PyVal.dict params)) w rv).2 =
          HttpOutcome.ok (RespBody.text "OK") ↔
        w = true ∧ rv.truthy = true)) ∧
    (∀ {F : Type} (f : F) (params : List (String × PyVal))
        (sc : PyVal) (w : Bool) (rv : PyVal),
      dget params "scale" = some sc →
      (init_scale (some f) (some (PyVal.dict params)) w rv).2 =
        HttpOutcome.ok (RespBody.text
          (if w && rv.truthy then "OK" else "ERROR")) ∧
      ((init_scale (some f) (some (PyVal.dict params)) w rv).2 =
          HttpOutcome.ok (RespBody.text "OK") ↔
        w = true ∧ rv.truthy = true)) := by
  refine ⟨?_, ?_, ?_, ?_⟩
  · intro F f w rv
    rw [init_cmd_eq]
    refine ⟨rfl, ?_⟩
    exact (okText_iff (w && rv.truthy)).trans (by simp)
  · intro F f params g l m w rv hg hl hm
    rw [init_map_eq f params g l m w rv hg hl hm]
    refine ⟨rfl, ?_⟩
    exact (okText_iff (w && rv.truthy)).trans (by simp)
  · intro F f params q w rv hq
    rw [init_layer_eq f params q w rv hq]
    refine ⟨rfl, ?_⟩
    exact (okText_iff (w && rv.truthy)).trans (by simp)
  · intro F f params sc w rv hs
    rw [init_scale_eq f params sc w rv hs]
    refine ⟨rfl, ?_⟩
    exact (okText_iff (w && rv.truthy)).trans (by simp)

/-- Claim C10 witness: a concrete successful /init/map request with a
truthy shared value, plus concrete /init/layer and /init/scale calls. -/
theorem c10_witness :
    ((init_map (some ()) (some (PyVal.dict [("grassdb", PyVal.str "/data"),
        ("location", PyVal.str "loc1"), ("mapset", PyVal.str "PERMANENT")]))
      true (PyVal.bool true)).2 =
      HttpOutcome.ok (RespBody.text
        (if true && (PyVal.bool true).truthy then "OK" else "ERROR")) ∧
     ((init_map (some ()) (some (PyVal.dict [("grassdb", PyVal.str "/data"),
        ("location", PyVal.str "loc1"), ("mapset", PyVal.str "PERMANENT")]))
      true (PyVal.bool true)).2 = HttpOutcome.ok (RespBody.text "OK") ↔
       true = true ∧ (PyVal.bool true).truthy = true)) ∧
    ((init_layer (some ()) (some (PyVal.dict [("query", PyVal.str "elev")]))
      false (PyVal.bool true)).2 =
      HttpOutcome.ok (RespBody.text
        (if false && (PyVal.bool true).truthy then "OK" else "ERROR")) ∧
     ((init_layer (some ()) (some (PyVal.dict [("query", PyVal.str "elev")]))
      false (PyVal.bool true)).2 = HttpOutcome.ok (RespBody.text "OK") ↔
       false = true ∧ (PyVal.bool true).truthy = true)) ∧
    ((init_scale (some ()) (some (PyVal.dict [("scale", PyVal.int 500)]))
      true PyVal.none).2 =
      HttpOutcome.ok (RespBody.text
        (if true && PyVal.none.truthy then "OK" else "ERROR")) ∧
     ((init_scale (some ()) (some (PyVal.dict [("scale", PyVal.int 500)]))
      true PyVal.none).2 = HttpOutcome.ok (RespBody.text "OK") ↔
       true = true ∧ PyVal.none.truthy = true)) :=
  ⟨c10_ok_iff_truthy.2.1 () _ _ _ _ _ _ rfl rfl rfl,
   c10_ok_iff_truthy.2.2.1 () _ _ _ _ rfl,
   c10_ok_iff_truthy.2.2.2 () _ _ _ _ rfl⟩

/-- Claim C4 counterexample: POST /init/map with the well-formed but
incomplete body given by an empty JSON object (missing "grassdb"): by the
time the subscript raises KeyError the handler has already executed
response_event.clear() (the arm step), and the failure surfaces as a
server error, not a client-error response — refuting the claim that
malformed input performs neither the arm nor the schedule and is
rejected with a client error. -/
theorem c4_counterexample :
    (init_map (some ()) (some (PyVal.dict [])) true PyVal.none).1 = [Effect.clearEvent] ∧
    Effect.clearEvent ∈ (init_map (some ()) (some (PyVal.dict [])) true PyVal.none).1 ∧
    (init_map (some ()) (some (PyVal.dict [])) true PyVal.none).2 =
      HttpOutcome.serverError "KeyError" := by
  refine ⟨rfl, ?_, rfl⟩
  simp [init_map, dget]

/-- Claim C4 (amended): input that fails to parse or subscript — an
unparseable body, a parseable body that is not a JSON object, an object
body missing a required field, or (for /gcmd) a kwargs value that is not
an object — makes the handler fail before any wx.CallAfter runs, so
nothing is ever scheduled on the UI thread, but only after the arm
(response_event.clear) has been performed; only the unparseable body is
rejected with a client error, the other cases raise unhandled exceptions
surfacing as server errors.  Present fields, by contrast, are not
validated at all: an ill-typed value of a present field is forwarded
unchanged to the scheduled UI callable and the handler arms, schedules
and waits exactly as on well-typed input.  Stated for the two cited
handlers init_map and gcmd. -/
theorem c4_arm_precedes_validation :
    (∀ {F : Type} (f : F) (w : Bool) (rv : PyVal),
      init_map (F := F) (some f) Option.none w rv =
        ([Effect.clearEvent], HttpOutcome.clientError "BadRequest")) ∧
    (∀ {F : Type} (f : F) (bv : PyVal) (w : Bool) (rv : PyVal),
      (∀ entries, bv ≠ PyVal.dict entries) →
      init_map (some f) (some bv) w rv =
        ([Effect.clearEvent], HttpOutcome.serverError "TypeError")) ∧
    (∀ {F : Type} (f : F) (params : List (String × PyVal)) (w : Bool)
        (rv : PyVal),
      (dget params "grassdb" = Option.none ∨
       dget params "location" = Option.none ∨
       dget params "mapset" = Option.none) →
      init_map (some f) (some (PyVal.dict params)) w rv =
        ([Effect.clearEvent], HttpOutcome.serverError "KeyError")) ∧
    (∀ {F : Type} (f : F) (params : List (String × PyVal)) (g l m : PyVal)
        (w : Bool) (rv : PyVal),
      dget params "grassdb" = some g → dget params "location" = some l →
      dget params "mapset" = some m →
      (init_map (some f) (some (PyVal.dict params)) w rv).1 =
        [Effect.clearEvent,
         Effect.callAfter "InitMapset" []
           [("grassdb", g), ("location", l), ("mapset", m)],
         Effect.waitEvent FLASK_TIMEOUT]) ∧
    (∀ {F : Type} (f : F) (json_loads : String → Option PyVal) (w : Bool)
        (rv : Int × String × String),
      gcmd (F := F) (some f) Option.none json_loads w rv =
        ([Effect.clearEvent], HttpOutcome.clientError "BadRequest")) ∧
    (∀ {F : Type} (f : F) (bv : PyVal) (json_loads : String → Option PyVal)
        (w : Bool) (rv : Int × String × String),
      (∀ entries, bv ≠ PyVal.dict entries) →
      gcmd (some f) (some bv) json_loads w rv =
        ([Effect.clearEvent], HttpOutcome.serverError "TypeError")) ∧
    (∀ {F : Type} (f : F) (params : List (String × PyVal))
        (json_loads : String → Option PyVal) (w : Bool)
        (rv : Int × String × String),
      (dget params "cmd" = Option.none ∨ dget params "kwargs" = Option.none) →
      gcmd (some f) (some (PyVal.dict params)) json_loads w rv =
        ([Effect.clearEvent], HttpOutcome.serverError "KeyError")) ∧
    (∀ {F : Type} (f : F) (params : List (String × PyVal)) (cmd kv : PyVal)
        (json_loads : String → Option PyVal) (w : Bool)
        (rv : Int × String × String),
      dget params "cmd" = some cmd → dget params "kwargs" = some kv →
      (∀ entries, kv ≠ PyVal.dict entries) →
      gcmd (some f) (some (PyVal.dict params)) json_loads w rv =
        ([Effect.clearEvent], HttpOutcome.serverError "TypeError")) := by
  refine ⟨?_, ?_, ?_, ?_, ?_, ?_, ?_, ?_⟩
  · intro F f w rv
    rfl
  · intro F f bv w rv hnd
    cases bv with
    | dict entries => exact absurd rfl (hnd entries)
    | none => rfl
    | bool b => rfl
    | int n => rfl
    | str s => rfl
  · intro F f params w rv hmiss
    rcases hmiss with hg | hl | hm
    · simp [init_map, hg]
    · cases hgv : dget params "grassdb" with
      | none => simp [init_map, hgv]
      | some g => simp [init_map, hgv, hl]
    · cases hgv : dget params "grassdb" with
      | none => simp [init_map, hgv]
      | some g =>
        cases hlv : dget params "location" with
        | none => simp [init_map, hgv, hlv]
        | some l => simp [init_map, hgv, hlv, hm]
  · intro F f params g l m w rv hg hl hm
    rw [init_map_eq f params g l m w rv hg hl hm]
  · intro F f json_loads w rv
    rfl
  · intro F f bv json_loads w rv hnd
    cases bv with
    | dict entries => exact absurd rfl (hnd entries)
    | none => rfl
    | bool b => rfl
    | int n => rfl
    | str s => rfl
  · intro F f params json_loads w rv hmiss
    rcases hmiss with hc | hk
    · simp [gcmd, hc]
    · cases hcv : dget params "cmd" with
      | none => simp [gcmd, hcv]
      | some cmd => simp [gcmd, hcv, hk]
  · intro F f params cmd kv json_loads w rv hc hkv hnd
    cases kv with
    | dict entries => exact absurd rfl (hnd entries)
    | none => simp [gcmd, hc, hkv]
    | bool b => simp [gcmd, hc, hkv]
    | int n => simp [gcmd, hc, hkv]
    | str s => simp [gcmd, hc, hkv]

/-- Claim C4 witness: concrete malformed requests — an incomplete
/init/map object body, a non-object /init/map body (the integer 42), an
/init/map body whose present grassdb field is an int (scheduled without
validation), a /gcmd body missing kwargs, a non-object /gcmd body, and a
/gcmd request whose kwargs field is an int rather than an object. -/
theorem c4_witness :
    init_map (some ()) (some (PyVal.int 42)) false PyVal.none =
      ([Effect.clearEvent], HttpOutcome.serverError "TypeError") ∧
    init_map (some ()) (some (PyVal.dict [("grassdb", PyVal.str "/d")]))
      false PyVal.none =
      ([Effect.clearEvent], HttpOutcome.serverError "KeyError") ∧
    (init_map (some ()) (some (PyVal.dict
        [("grassdb", PyVal.int 3), ("location", PyVal.str "loc1"),
         ("mapset", PyVal.str "PERMANENT")])) true PyVal.none).1 =
      [Effect.clearEvent,
       Effect.callAfter "InitMapset" []
         [("grassdb", PyVal.int 3), ("location", PyVal.str "loc1"),
          ("mapset", PyVal.str "PERMANENT")],
       Effect.waitEvent FLASK_TIMEOUT] ∧
    gcmd (some ()) (some (PyVal.int 7)) (fun _ => Option.none) false
      (0, "", "") =
      ([Effect.clearEvent], HttpOutcome.serverError "TypeError") ∧
    gcmd (some ()) (some (PyVal.dict [("cmd", PyVal.str "g.region")]))
      (fun _ => Option.none) false (0, "", "") =
      ([Effect.clearEvent], HttpOutcome.serverError "KeyError") ∧
    gcmd (some ()) (some (PyVal.dict
        [("cmd", PyVal.str "g.region"), ("kwargs", PyVal.int 3)]))
      (fun _ => Option.none) false (0, "", "") =
      ([Effect.clearEvent], HttpOutcome.serverError "TypeError") :=
  ⟨c4_arm_precedes_validation.2.1 () (PyVal.int 42) false PyVal.none
     (fun _ h => PyVal.noConfusion h),
   c4_arm_precedes_validation.2.2.1 () [("grassdb", PyVal.str "/d")]
     false PyVal.none (Or.inr (Or.inl rfl)),
   c4_arm_precedes_validation.2.2.2.1 ()
     [("grassdb", PyVal.int 3), ("location", PyVal.str "loc1"),
      ("mapset", PyVal.str "PERMANENT")]
     (PyVal.int 3) (PyVal.str "loc1") (PyVal.str "PERMANENT")
     true PyVal.none rfl rfl rfl,
   c4_arm_precedes_validation.2.2.2.2.2.1 () (PyVal.int 7)
     (fun _ => Option.none) false (0, "", "")
     (fun _ h => PyVal.noConfusion h),
   c4_arm_precedes_validation.2.2.2.2.2.2.1 ()
     [("cmd", PyVal.str "g.region")] (fun _ => Option.none) false
     (0, "", "") (Or.inr rfl),
   c4_arm_precedes_validation.2.2.2.2.2.2.2 ()
     [("cmd", PyVal.str "g.region"), ("kwargs", PyVal.int 3)]
     (PyVal.str "g.region") (PyVal.int 3) (fun _ => Option.none) false
     (0, "", "") rfl rfl (fun _ h => PyVal.noConfusion h)⟩

/-- Claim C8 counterexample: two completed /gcmd requests identical up to
the diagnostic output response_value[2] produce identical HTTP responses,
and that response carries only the returncode and stdout fields, so the
diagnostic component is not surfaced to the caller — refuting the claim
that all three components of the completion triple reach the caller. -/
theorem c8_counterexample :
    (gcmd (some ()) (some (PyVal.dict [("cmd", PyVal.str "g.region"),
        ("kwargs", PyVal.dict [])]))
      (fun _ => Option.none) true (0, "out", "diagA")).2 =
    (gcmd (some ()) (some (PyVal.dict [("cmd", PyVal.str "g.region"),
        ("kwargs", PyVal.dict [])]))
      (fun _ => Option.none) true (0, "out", "diagB")).2 ∧
    "diagA" ≠ "diagB" ∧
    (gcmd (some ()) (some (PyVal.dict [("cmd", PyVal.str "g.region"),
        ("kwargs", PyVal.dict [])]))
      (fun _ => Option.none) true (0, "out", "diagA")).2 =
      HttpOutcome.ok (RespBody.jsonDict
        [("returncode", PyVal.int 0), ("stdout", PyVal.str "out")]) :=
  ⟨rfl, by decide, rfl⟩

/-- Claim C8 (amended): on completion /gcmd surfaces only the numeric
status and the primary output in its response dict; the diagnostic
output response_value[2] is printed on the server console (a printOut
effect in the trace) and does not appear in the response. -/
theorem c8_diag_only_printed {F : Type} (f : F)
    (params : List (String × PyVal)) (cmd : PyVal)
    (kwargs : List (String × PyVal)) (json_loads : String → Option PyVal)
    (rv : Int × String × String) (v : PyVal)
    (hc : dget params "cmd" = some cmd)
    (hk : dget params "kwargs" = some (PyVal.dict kwargs))
    (hv : json_loads rv.2.1 = some v) :
    Effect.printOut (PyVal.str rv.2.2) ∈
      (gcmd (some f) (some (PyVal.dict params)) json_loads true rv).1 ∧
    (gcmd (some f) (some (PyVal.dict params)) json_loads true rv).2 =
      HttpOutcome.ok (RespBody.jsonDict
        [("returncode", PyVal.int rv.1),
         ("stdout", if isFmtJson kwargs then v else PyVal.str rv.2.1)]) := by
  have he := gcmd_eq f params cmd kwargs json_loads true rv hc hk
  constructor
  · rw [he]
    simp
  · rw [he]
    cases hf : isFmtJson kwargs <;> simp [hf, hv]

/-- Claim C8 witness: a concrete completed /gcmd request without the json
flag. -/
theorem c8_witness :
    Effect.printOut (PyVal.str "diag") ∈
      (gcmd (some ()) (some (PyVal.dict [("cmd", PyVal.str "g.region"),
          ("kwargs", PyVal.dict [])]))
        (fun _ => some PyVal.none) true (7, "out", "diag")).1 ∧
    (gcmd (some ()) (some (PyVal.dict [("cmd", PyVal.str "g.region"),
        ("kwargs", PyVal.dict [])]))
      (fun _ => some PyVal.none) true (7, "out", "diag")).2 =
      HttpOutcome.ok (RespBody.jsonDict
        [("returncode", PyVal.int 7),
         ("stdout", if isFmtJson [] then PyVal.none
                    else PyVal.str "out")]) :=
  c8_diag_only_printed ()
    [("cmd", PyVal.str "g.region"), ("kwargs", PyVal.dict [])]
    (PyVal.str "g.region") [] (fun _ => some PyVal.none)
    (7, "out", "diag") PyVal.none rfl rfl rfl

end Wxgui
